import Mathlib

/-! STM32_XPD: EXTI line configuration (F0 and F3 families)

Shallow embedding of `STM32F0_XPD/src/xpd_exti.c` (`EXTI_vInit`, `EXTI_vDeinit`,
`EXTI_xPinCallbacks`) and `STM32F3_XPD/src/xpd_exti.c` (`XPD_EXTI_Init`,
`XPD_EXTI_Callbacks`).

* A `uint32_t` register is a `Nat`; every store to it is reduced modulo `2 ^ 32`.
* The line mask `1 << ucLine` is a shift of a 32-bit `int`, which C defines for counts
  0..31 only. For a count from 32 on the mask is the word the target yields there, the
  field `shiftPastWidth` of `Target`; no value is fixed for it.
* The two preprocessor switches `EXTI_BB` and `RCC_APB2ENR_EXTITEN` are fields of
  `Target`; each function takes the target it is compiled for.
* A callback pointer is an `Option Nat` (`none` is `NULL`, `some a` the function at
  address `a`); a callback array is a `List` of them.
* An indexed store past the end of the 32-entry array of the F3 variant has no
  defined result in C: `XPD_EXTI_Init` returns `none` there.
-/

namespace STM32_XPD

/-! ## Words, flags and register access macros -/

/-- Value kept by a store to a `uint32_t` object. -/
def u32 (x : Nat) : Nat := x % 2 ^ 32

/-- Callback pointer type: `none` is `NULL`. -/
abbrev XPD_ValueCallbackType := Option Nat

/-- Modelled from the spec: `REACTION_IT` of the absent header `xpd_common.h`, the
interrupt flag of the reaction bitmask (bit 0, the bit the bit-band branch stores
into `IMR`). -/
def REACTION_IT : Nat := 1

/-- Modelled from the spec: `REACTION_EVENT` of the absent header `xpd_common.h`, the
event flag of the reaction bitmask (bit 1, the bit the bit-band branch stores into
`EMR`). -/
def REACTION_EVENT : Nat := 2

/-- Modelled from the spec: `EDGE_RISING` of the absent header `xpd_common.h`, the
rising flag of the edge bitmask (bit 0, stored into `RTSR` by the bit-band branch). -/
def EDGE_RISING : Nat := 1

/-- Modelled from the spec: `EDGE_FALLING` of the absent header `xpd_common.h`, the
falling flag of the edge bitmask (bit 1, stored into `FTSR` by the bit-band branch). -/
def EDGE_FALLING : Nat := 2

/-- Modelled from the spec: the absent macro `SET_BIT(REG, BIT)`, a bitwise OR of the
shared register word with the mask (`REG |= BIT`). -/
def SET_BIT (REG BIT : Nat) : Nat := u32 (REG ||| BIT)

/-- Modelled from the spec: the absent macro `CLEAR_BIT(REG, BIT)`, a bitwise AND-NOT
of the shared register word with the mask (`REG &= ~BIT`), the complement taken on
32 bits. -/
def CLEAR_BIT (REG BIT : Nat) : Nat := u32 (REG &&& (2 ^ 32 - 1 - u32 BIT))

/-- Modelled from the spec: a store of the word `w` to the bit-band alias of bit `n` of
a register (`EXTI_BB->REG[n] = w`, the alias structure `EXTI_BB` is absent): every
register bit has its own addressable word, and the store replaces bit `n` of the
register by bit 0 of `w`, leaving the bits below and above it as they are. -/
def BB_store (REG n w : Nat) : Nat :=
  u32 (REG % 2 ^ n + (w % 2) * 2 ^ n + (REG / 2 ^ (n + 1)) * 2 ^ (n + 1))

/-- The four EXTI registers the driver writes. -/
structure EXTI_TypeDef where
  IMR : Nat
  EMR : Nat
  RTSR : Nat
  FTSR : Nat
deriving DecidableEq, Repr

/-- All four registers hold 32-bit values. -/
def EXTI_TypeDef.Valid (r : EXTI_TypeDef) : Prop :=
  r.IMR < 2 ^ 32 ∧ r.EMR < 2 ^ 32 ∧ r.RTSR < 2 ^ 32 ∧ r.FTSR < 2 ^ 32

instance (r : EXTI_TypeDef) : Decidable r.Valid := by
  unfold EXTI_TypeDef.Valid; infer_instance

/-- The build the two files are compiled for: the compile-time switches `EXTI_BB` (the
bit-band alias of the EXTI block exists) and `RCC_APB2ENR_EXTITEN` (the EXTI block has a
clock enable bit), and `shiftPastWidth n`, the word that `1 << n` yields on the target
for a count `n` from 32 on, where C defines no result for the shift of a 32-bit `int`. -/
structure Target where
  EXTI_BB : Bool
  RCC_APB2ENR_EXTITEN : Bool
  shiftPastWidth : Nat → Nat

/-- The line mask `1 << ucLine` stored in the `uint32_t` local `ulLineBit` (`linebit`
in the F3 file). The shift is one of a 32-bit `int`: for a count in 0..31 it is
`2 ^ ucLine` as a 32-bit word; for a count from 32 on C defines no result and the mask
is the word the target yields, reduced to 32 bits by the store. -/
def ulLineBit (t : Target) (ucLine : Nat) : Nat :=
  if ucLine < 32 then u32 (1 <<< ucLine) else u32 (t.shiftPastWidth ucLine)

/-- The out-of-range shift of a target whose shift instruction uses the low five bits
of the count: `1 << n` is computed as `1 << (n mod 32)`. -/
def shiftCountMod32 (n : Nat) : Nat := 1 <<< (n % 32)

/-! ## STM32F0_XPD/src/xpd_exti.c -/

namespace F0

/-- Setup structure read by `EXTI_vInit`: the fields `Reaction` and `Edge`, each the
bit pattern of the enum value passed. -/
structure EXTI_InitType where
  Reaction : Nat
  Edge : Nat
deriving DecidableEq, Repr

/-- Everything the F0 file reads or writes: the EXTI registers, the pin callback
array and the state of the EXTI clock in the RCC. -/
structure State where
  EXTI : EXTI_TypeDef
  EXTI_xPinCallbacks : List XPD_ValueCallbackType
  clockEnabled : Bool
deriving DecidableEq, Repr

/-- Initializer of `EXTI_xPinCallbacks[16]`. -/
def EXTI_xPinCallbacks : List XPD_ValueCallbackType :=
  [none, none, none, none, none, none, none, none,
   none, none, none, none, none, none, none, none]

/-- Modelled from the spec: the absent clock-control collaborator
`RCC_vClockEnable(RCC_POS_EXTI)`, a single side-effecting call that enables the clock
of the EXTI block. -/
def RCC_vClockEnable (s : State) : State := { s with clockEnabled := true }

/-- Embedding of `EXTI_vInit(ucLine, pxConfig)`. -/
def EXTI_vInit (t : Target) (ucLine : Nat) (pxConfig : EXTI_InitType) (s : State) : State :=
  let s := if t.RCC_APB2ENR_EXTITEN then RCC_vClockEnable s else s
  if t.EXTI_BB then
    { s with EXTI :=
        { IMR := BB_store s.EXTI.IMR ucLine pxConfig.Reaction
          EMR := BB_store s.EXTI.EMR ucLine (pxConfig.Reaction >>> 1)
          RTSR := BB_store s.EXTI.RTSR ucLine pxConfig.Edge
          FTSR := BB_store s.EXTI.FTSR ucLine (pxConfig.Edge >>> 1) } }
  else
    { s with EXTI :=
        { IMR :=
            if pxConfig.Reaction &&& REACTION_IT ≠ 0 then SET_BIT s.EXTI.IMR (ulLineBit t ucLine)
            else CLEAR_BIT s.EXTI.IMR (ulLineBit t ucLine)
          EMR :=
            if pxConfig.Reaction &&& REACTION_EVENT ≠ 0 then SET_BIT s.EXTI.EMR (ulLineBit t ucLine)
            else CLEAR_BIT s.EXTI.EMR (ulLineBit t ucLine)
          RTSR :=
            if pxConfig.Edge &&& EDGE_RISING ≠ 0 then SET_BIT s.EXTI.RTSR (ulLineBit t ucLine)
            else CLEAR_BIT s.EXTI.RTSR (ulLineBit t ucLine)
          FTSR :=
            if pxConfig.Edge &&& EDGE_FALLING ≠ 0 then SET_BIT s.EXTI.FTSR (ulLineBit t ucLine)
            else CLEAR_BIT s.EXTI.FTSR (ulLineBit t ucLine) } }

/-- Embedding of `EXTI_vDeinit(ucLine)`. -/
def EXTI_vDeinit (t : Target) (ucLine : Nat) (s : State) : State :=
  if t.EXTI_BB then
    { s with EXTI :=
        { IMR := BB_store s.EXTI.IMR ucLine 0
          EMR := BB_store s.EXTI.EMR ucLine 0
          RTSR := BB_store s.EXTI.RTSR ucLine 0
          FTSR := BB_store s.EXTI.FTSR ucLine 0 } }
  else
    { s with EXTI :=
        { IMR := CLEAR_BIT s.EXTI.IMR (ulLineBit t ucLine)
          EMR := CLEAR_BIT s.EXTI.EMR (ulLineBit t ucLine)
          RTSR := CLEAR_BIT s.EXTI.RTSR (ulLineBit t ucLine)
          FTSR := CLEAR_BIT s.EXTI.FTSR (ulLineBit t ucLine) } }

end F0

/-! ## STM32F3_XPD/src/xpd_exti.c -/

namespace F3

/-- Setup structure read by `XPD_EXTI_Init`: `Reaction`, `Edge` and the interrupt
callback `ITCallback`. -/
structure EXTI_InitType where
  Reaction : Nat
  Edge : Nat
  ITCallback : XPD_ValueCallbackType
deriving DecidableEq, Repr

/-- Everything the F3 file reads or writes: the EXTI registers, the callback array
and the state of the EXTI clock. -/
structure State where
  EXTI : EXTI_TypeDef
  XPD_EXTI_Callbacks : List XPD_ValueCallbackType
  clockEnabled : Bool
deriving DecidableEq, Repr

/-- Initializer of `XPD_EXTI_Callbacks[32]`. -/
def XPD_EXTI_Callbacks : List XPD_ValueCallbackType :=
  [none, none, none, none, none, none, none, none,
   none, none, none, none, none, none, none, none,
   none, none, none, none, none, none, none, none,
   none, none, none, none, none, none, none, none]

/-- Modelled from the spec: the absent clock-control collaborator
`XPD_EXTI_ClockCtrl(NewState)`, which switches the clock of the EXTI block. -/
def XPD_EXTI_ClockCtrl (NewState : Bool) (s : State) : State :=
  { s with clockEnabled := NewState }

/-- Embedding of `XPD_EXTI_Init(Line, Config)`. The result is `none` when the store
`XPD_EXTI_Callbacks[Line] = ...` falls outside the array. -/
def XPD_EXTI_Init (t : Target) (Line : Nat) (Config : EXTI_InitType) (s : State) :
    Option State :=
  let s := if t.RCC_APB2ENR_EXTITEN then XPD_EXTI_ClockCtrl true s else s
  let s : State :=
    if t.EXTI_BB then
      { s with EXTI :=
          { IMR := BB_store s.EXTI.IMR Line Config.Reaction
            EMR := BB_store s.EXTI.EMR Line (Config.Reaction >>> 1)
            RTSR := BB_store s.EXTI.RTSR Line Config.Edge
            FTSR := BB_store s.EXTI.FTSR Line (Config.Edge >>> 1) } }
    else
      { s with EXTI :=
          { IMR :=
              if Config.Reaction &&& REACTION_IT ≠ 0 then SET_BIT s.EXTI.IMR (ulLineBit t Line)
              else CLEAR_BIT s.EXTI.IMR (ulLineBit t Line)
            EMR :=
              if Config.Reaction &&& REACTION_EVENT ≠ 0 then SET_BIT s.EXTI.EMR (ulLineBit t Line)
              else CLEAR_BIT s.EXTI.EMR (ulLineBit t Line)
            RTSR :=
              if Config.Edge &&& EDGE_RISING ≠ 0 then SET_BIT s.EXTI.RTSR (ulLineBit t Line)
              else CLEAR_BIT s.EXTI.RTSR (ulLineBit t Line)
            FTSR :=
              if Config.Edge &&& EDGE_FALLING ≠ 0 then SET_BIT s.EXTI.FTSR (ulLineBit t Line)
              else CLEAR_BIT s.EXTI.FTSR (ulLineBit t Line) } }
  if Line < s.XPD_EXTI_Callbacks.length then
    if Config.Reaction &&& REACTION_IT ≠ 0 then
      some { s with XPD_EXTI_Callbacks := s.XPD_EXTI_Callbacks.set Line Config.ITCallback }
    else
      some { s with XPD_EXTI_Callbacks := s.XPD_EXTI_Callbacks.set Line none }
  else
    none

end F3

/-! ## Predicates on the line bits and sample data -/

/-- The four bits of line `L` in the registers `r` are exactly the flags requested by
`Reaction` and `Edge`. -/
def LineMatches (r : EXTI_TypeDef) (L Reaction Edge : Nat) : Prop :=
  (r.IMR.testBit L = true ↔ Reaction &&& REACTION_IT ≠ 0) ∧
  (r.EMR.testBit L = true ↔ Reaction &&& REACTION_EVENT ≠ 0) ∧
  (r.RTSR.testBit L = true ↔ Edge &&& EDGE_RISING ≠ 0) ∧
  (r.FTSR.testBit L = true ↔ Edge &&& EDGE_FALLING ≠ 0)

instance (r : EXTI_TypeDef) (L Reaction Edge : Nat) :
    Decidable (LineMatches r L Reaction Edge) := by
  unfold LineMatches; infer_instance

/-- The four bits of line `L` in the registers `r` are all 0. -/
def LineCleared (r : EXTI_TypeDef) (L : Nat) : Prop :=
  r.IMR.testBit L = false ∧ r.EMR.testBit L = false ∧
  r.RTSR.testBit L = false ∧ r.FTSR.testBit L = false

instance (r : EXTI_TypeDef) (L : Nat) : Decidable (LineCleared r L) := by
  unfold LineCleared; infer_instance

/-- The four bits of line `L` have the same values in `r` and in `r'`. -/
def SameLine (r r' : EXTI_TypeDef) (L : Nat) : Prop :=
  r'.IMR.testBit L = r.IMR.testBit L ∧ r'.EMR.testBit L = r.EMR.testBit L ∧
  r'.RTSR.testBit L = r.RTSR.testBit L ∧ r'.FTSR.testBit L = r.FTSR.testBit L

instance (r r' : EXTI_TypeDef) (L : Nat) : Decidable (SameLine r r' L) := by
  unfold SameLine; infer_instance

/-- A register file with lines of every kind configured, used in the examples. -/
def sampleRegs : EXTI_TypeDef :=
  { IMR := 0x0F940008, EMR := 0x00000008, RTSR := 0x80000001, FTSR := 0xFFFF0008 }

/-- An F0 state over `sampleRegs` with the callback array at its initializer. -/
def F0.sampleState : F0.State :=
  { EXTI := sampleRegs, EXTI_xPinCallbacks := F0.EXTI_xPinCallbacks, clockEnabled := false }

/-- An F3 state over `sampleRegs` with the callback array at its initializer. -/
def F3.sampleState : F3.State :=
  { EXTI := sampleRegs, XPD_EXTI_Callbacks := F3.XPD_EXTI_Callbacks, clockEnabled := false }

/-! ## Sequences of calls -/

/-- A finite sequence of `XPD_EXTI_Init` calls, each given by its line and its setup
structure, run from left to right; `none` as soon as one call has no defined result. -/
def F3.runInits (t : Target) : List (Nat × F3.EXTI_InitType) → F3.State → Option F3.State
  | [], s => some s
  | c :: cs, s => (F3.XPD_EXTI_Init t c.1 c.2 s).bind (F3.runInits t cs)

/-- One call of the F0 file: `EXTI_vInit(ucLine, pxConfig)` or `EXTI_vDeinit(ucLine)`. -/
inductive F0.Call where
  | init (ucLine : Nat) (pxConfig : F0.EXTI_InitType)
  | deinit (ucLine : Nat)
deriving DecidableEq, Repr

/-- A finite sequence of F0 calls run from left to right. -/
def F0.runCalls (t : Target) : List F0.Call → F0.State → F0.State
  | [], s => s
  | F0.Call.init L C :: cs, s => F0.runCalls t cs (F0.EXTI_vInit t L C s)
  | F0.Call.deinit L :: cs, s => F0.runCalls t cs (F0.EXTI_vDeinit t L s)

/-- Every line in 0..31 with a non-null entry in `XPD_EXTI_Callbacks` has its bit set
in `IMR`. -/
def F3.CallbacksUnmasked (s : F3.State) : Prop :=
  ∀ L, L < 32 → ∀ cb, s.XPD_EXTI_Callbacks[L]? = some (some cb) →
    s.EXTI.IMR.testBit L = true

/-! ## Bit-level facts about the access macros -/

theorem ulLineBit_of_lt (t : Target) {L : Nat} (hL : L < 32) : ulLineBit t L = 2 ^ L := by
  unfold ulLineBit u32
  rw [if_pos hL, Nat.shiftLeft_eq, Nat.one_mul]
  exact Nat.mod_eq_of_lt (Nat.pow_lt_pow_right (by decide) hL)

theorem testBit_u32 (x i : Nat) : (u32 x).testBit i = (decide (i < 32) && x.testBit i) := by
  unfold u32
  rw [Nat.testBit_mod_two_pow]

theorem testBit_SET_BIT (r b i : Nat) :
    (SET_BIT r b).testBit i = (decide (i < 32) && (r.testBit i || b.testBit i)) := by
  unfold SET_BIT
  rw [testBit_u32, Nat.testBit_or]

theorem testBit_CLEAR_BIT (r b i : Nat) :
    (CLEAR_BIT r b).testBit i =
      (decide (i < 32) && (r.testBit i && !(b.testBit i))) := by
  unfold CLEAR_BIT
  have hb : u32 b < 2 ^ 32 := Nat.mod_lt _ (by decide)
  have h : 2 ^ 32 - 1 - u32 b = 2 ^ 32 - (u32 b + 1) := by omega
  rw [testBit_u32, Nat.testBit_and, h, Nat.testBit_two_pow_sub_succ hb, testBit_u32]
  by_cases hi : i < 32 <;> simp [hi]

theorem testBit_BB_store (r n w i : Nat) :
    (BB_store r n w).testBit i =
      (decide (i < 32) && (if i = n then w.testBit 0 else r.testBit i)) := by
  unfold BB_store
  rw [testBit_u32]
  congr 1
  have e : r % 2 ^ n + (w % 2) * 2 ^ n + (r / 2 ^ (n + 1)) * 2 ^ (n + 1)
      = 2 ^ n * (2 ^ 1 * (r / 2 ^ (n + 1)) + w % 2) + r % 2 ^ n := by
    rw [pow_succ]; ring
  rw [e, Nat.testBit_mul_pow_two_add _ (Nat.mod_lt _ (Nat.pos_pow_of_pos _ (by decide)))]
  by_cases h1 : i < n
  · have : i ≠ n := by omega
    simp [h1, this, Nat.testBit_mod_two_pow]
  · rw [if_neg h1, Nat.testBit_mul_pow_two_add _ (show w % 2 < 2 ^ 1 by omega)]
    by_cases h2 : i = n
    · subst h2
      simp [Nat.testBit_mod_two_pow]
    · have h3 : ¬ (i - n < 1) := by omega
      rw [if_neg h3, if_neg h2, Nat.testBit_to_div_mod, Nat.testBit_to_div_mod]
      congr 2
      rw [Nat.div_div_eq_div_mul, ← pow_add]
      congr 3
      omega

/-- A masked write of line `L`: bit `L` becomes the tested condition, every other bit
below 32 keeps its value. -/
theorem testBit_masked_write (c : Prop) [Decidable c] {L : Nat} (hL : L < 32) (r i : Nat) :
    (if c then SET_BIT r (2 ^ L) else CLEAR_BIT r (2 ^ L)).testBit i =
      (decide (i < 32) && (if i = L then decide c else r.testBit i)) := by
  by_cases hc : c
  · rw [if_pos hc, testBit_SET_BIT, Nat.testBit_two_pow]
    by_cases h : i = L
    · subst h; simp [hc]
    · have h2 : ¬ L = i := fun e => h e.symm
      simp [h, h2]
  · rw [if_neg hc, testBit_CLEAR_BIT, Nat.testBit_two_pow]
    by_cases h : i = L
    · subst h; simp [hc]
    · have h2 : ¬ L = i := fun e => h e.symm
      simp [h, h2]

/-- After a masked write of line `L`, bit `L` is set exactly when the tested condition
holds. -/
theorem masked_write_bit (c : Prop) [Decidable c] {L : Nat} (hL : L < 32) (r : Nat) :
    (if c then SET_BIT r (2 ^ L) else CLEAR_BIT r (2 ^ L)).testBit L = true ↔ c := by
  rw [testBit_masked_write c hL]
  simp [hL]

theorem testBit_CLEAR_BIT_line {L : Nat} (hL : L < 32) (r i : Nat) :
    (CLEAR_BIT r (2 ^ L)).testBit i =
      (decide (i < 32) && (if i = L then false else r.testBit i)) := by
  have h := testBit_masked_write False hL r i
  simpa using h

/-- A later masked write of a line replaces an earlier one. -/
theorem masked_write_overwrite (c d : Prop) [Decidable c] [Decidable d] {L : Nat}
    (hL : L < 32) (r : Nat) :
    (if c then SET_BIT (if d then SET_BIT r (2 ^ L) else CLEAR_BIT r (2 ^ L))
        (2 ^ L)
      else CLEAR_BIT (if d then SET_BIT r (2 ^ L) else CLEAR_BIT r (2 ^ L))
        (2 ^ L)) =
      (if c then SET_BIT r (2 ^ L) else CLEAR_BIT r (2 ^ L)) := by
  apply Nat.eq_of_testBit_eq
  intro i
  rw [testBit_masked_write c hL, testBit_masked_write d hL, testBit_masked_write c hL]
  by_cases h : i = L <;> by_cases h32 : i < 32 <;> simp [h, h32]

/-- A masked write after a masked clear of the same line is the masked write alone. -/
theorem masked_write_after_clear (c : Prop) [Decidable c] {L : Nat} (hL : L < 32) (r : Nat) :
    (if c then SET_BIT (CLEAR_BIT r (2 ^ L)) (2 ^ L)
      else CLEAR_BIT (CLEAR_BIT r (2 ^ L)) (2 ^ L)) =
      (if c then SET_BIT r (2 ^ L) else CLEAR_BIT r (2 ^ L)) := by
  have h := masked_write_overwrite c False hL r
  simpa using h

/-- A masked clear after a masked write of the same line is the masked clear alone. -/
theorem masked_clear_after_write (c : Prop) [Decidable c] {L : Nat} (hL : L < 32) (r : Nat) :
    CLEAR_BIT (if c then SET_BIT r (2 ^ L) else CLEAR_BIT r (2 ^ L)) (2 ^ L) =
      CLEAR_BIT r (2 ^ L) := by
  have h := masked_write_overwrite False c hL r
  simpa using h

/-- Clearing a bit that is already clear in a 32-bit word leaves the word as it is. -/
theorem CLEAR_BIT_of_clear {L : Nat} (hL : L < 32) {r : Nat} (hr : r < 2 ^ 32)
    (hbit : r.testBit L = false) : CLEAR_BIT r (2 ^ L) = r := by
  apply Nat.eq_of_testBit_eq
  intro i
  rw [testBit_CLEAR_BIT_line hL]
  by_cases h : i = L
  · subst h; simp [hbit]
  · by_cases h32 : i < 32
    · simp [h, h32]
    · have : r.testBit i = false :=
        Nat.testBit_lt_two_pow (lt_of_lt_of_le hr (Nat.pow_le_pow_right (by decide) (by omega)))
      simp [h, h32, this]

/-- The flag tests of the masked branch read bit 0 and bit 1 of the tested value. -/
theorem and_REACTION_IT (x : Nat) : (x &&& REACTION_IT ≠ 0) ↔ x % 2 = 1 := by
  unfold REACTION_IT
  rw [Nat.and_one_is_mod]; omega

theorem and_two_ne_zero (x : Nat) : (x &&& 2 ≠ 0) ↔ (x >>> 1) % 2 = 1 := by
  have h2 : (x &&& 2).testBit 1 = x.testBit 1 := by
    rw [Nat.testBit_and]; simp [show (2 : Nat).testBit 1 = true by decide]
  have h3 : (x >>> 1) % 2 = 1 ↔ x.testBit 1 = true := by
    rw [Nat.testBit_to_div_mod, Nat.shiftRight_eq_div_pow]; simp
  rw [h3, ← h2]
  constructor
  · intro h
    by_contra hb
    apply h
    apply Nat.eq_of_testBit_eq
    intro i
    by_cases hi : i = 1
    · subst hi; simpa using hb
    · rw [Nat.testBit_and, show (2 : Nat) = 2 ^ 1 by rfl, Nat.testBit_two_pow]
      have : ¬ 1 = i := fun e => hi e.symm
      simp [this]
  · intro h e
    rw [e] at h
    simp at h

theorem and_REACTION_EVENT (x : Nat) : (x &&& REACTION_EVENT ≠ 0) ↔ (x >>> 1) % 2 = 1 :=
  and_two_ne_zero x

theorem and_EDGE_RISING (x : Nat) : (x &&& EDGE_RISING ≠ 0) ↔ x % 2 = 1 :=
  and_REACTION_IT x

theorem and_EDGE_FALLING (x : Nat) : (x &&& EDGE_FALLING ≠ 0) ↔ (x >>> 1) % 2 = 1 :=
  and_two_ne_zero x

/-- A bit-band store to line `n` is the masked write that tests bit 0 of the stored
word. -/
theorem BB_store_eq_masked {n : Nat} (hn : n < 32) (r w : Nat) :
    BB_store r n w =
      (if w % 2 = 1 then SET_BIT r (2 ^ n) else CLEAR_BIT r (2 ^ n)) := by
  apply Nat.eq_of_testBit_eq
  intro i
  rw [testBit_BB_store, testBit_masked_write _ hn, Nat.testBit_zero]

theorem BB_store_zero_eq_clear {n : Nat} (hn : n < 32) (r : Nat) :
    BB_store r n 0 = CLEAR_BIT r (2 ^ n) := by
  rw [BB_store_eq_masked hn]; simp

/-! ## The operations in closed form -/

/-- For a line below 32 both encodings of `EXTI_vInit` produce the masked result. -/
theorem F0.EXTI_vInit_eq (t : Target) {L : Nat} (hL : L < 32) (C : F0.EXTI_InitType)
    (s : F0.State) :
    F0.EXTI_vInit t L C s =
      { EXTI :=
          { IMR :=
              if C.Reaction &&& REACTION_IT ≠ 0 then SET_BIT s.EXTI.IMR (2 ^ L)
              else CLEAR_BIT s.EXTI.IMR (2 ^ L)
            EMR :=
              if C.Reaction &&& REACTION_EVENT ≠ 0 then SET_BIT s.EXTI.EMR (2 ^ L)
              else CLEAR_BIT s.EXTI.EMR (2 ^ L)
            RTSR :=
              if C.Edge &&& EDGE_RISING ≠ 0 then SET_BIT s.EXTI.RTSR (2 ^ L)
              else CLEAR_BIT s.EXTI.RTSR (2 ^ L)
            FTSR :=
              if C.Edge &&& EDGE_FALLING ≠ 0 then SET_BIT s.EXTI.FTSR (2 ^ L)
              else CLEAR_BIT s.EXTI.FTSR (2 ^ L) }
        EXTI_xPinCallbacks := s.EXTI_xPinCallbacks
        clockEnabled := t.RCC_APB2ENR_EXTITEN || s.clockEnabled } := by
  obtain ⟨bb, ck, sh⟩ := t
  cases bb <;> cases ck <;>
    simp only [F0.EXTI_vInit, F0.RCC_vClockEnable, BB_store_eq_masked hL, ulLineBit_of_lt _ hL,
      and_REACTION_IT,
      and_REACTION_EVENT, and_EDGE_RISING, and_EDGE_FALLING, if_true, if_false,
      Bool.true_or, Bool.false_or, Bool.false_eq_true]

/-- For a line below 32 both encodings of `EXTI_vDeinit` produce the masked result. -/
theorem F0.EXTI_vDeinit_eq (t : Target) {L : Nat} (hL : L < 32) (s : F0.State) :
    F0.EXTI_vDeinit t L s =
      { EXTI :=
          { IMR := CLEAR_BIT s.EXTI.IMR (2 ^ L)
            EMR := CLEAR_BIT s.EXTI.EMR (2 ^ L)
            RTSR := CLEAR_BIT s.EXTI.RTSR (2 ^ L)
            FTSR := CLEAR_BIT s.EXTI.FTSR (2 ^ L) }
        EXTI_xPinCallbacks := s.EXTI_xPinCallbacks
        clockEnabled := s.clockEnabled } := by
  obtain ⟨bb, ck, sh⟩ := t
  cases bb <;>
    simp only [F0.EXTI_vDeinit, BB_store_zero_eq_clear hL, ulLineBit_of_lt _ hL, if_true,
      if_false,
      Bool.false_eq_true]

/-- For a line inside the callback array both encodings of `XPD_EXTI_Init` return the
masked result with the callback entry of the line rewritten. -/
theorem F3.XPD_EXTI_Init_eq (t : Target) {L : Nat} (hL : L < 32) (C : F3.EXTI_InitType)
    (s : F3.State) (hlen : s.XPD_EXTI_Callbacks.length = 32) :
    F3.XPD_EXTI_Init t L C s = some
      { EXTI :=
          { IMR :=
              if C.Reaction &&& REACTION_IT ≠ 0 then SET_BIT s.EXTI.IMR (2 ^ L)
              else CLEAR_BIT s.EXTI.IMR (2 ^ L)
            EMR :=
              if C.Reaction &&& REACTION_EVENT ≠ 0 then SET_BIT s.EXTI.EMR (2 ^ L)
              else CLEAR_BIT s.EXTI.EMR (2 ^ L)
            RTSR :=
              if C.Edge &&& EDGE_RISING ≠ 0 then SET_BIT s.EXTI.RTSR (2 ^ L)
              else CLEAR_BIT s.EXTI.RTSR (2 ^ L)
            FTSR :=
              if C.Edge &&& EDGE_FALLING ≠ 0 then SET_BIT s.EXTI.FTSR (2 ^ L)
              else CLEAR_BIT s.EXTI.FTSR (2 ^ L) }
        XPD_EXTI_Callbacks :=
          s.XPD_EXTI_Callbacks.set L
            (if C.Reaction &&& REACTION_IT ≠ 0 then C.ITCallback else none)
        clockEnabled := t.RCC_APB2ENR_EXTITEN || s.clockEnabled } := by
  have hL2 : L < s.XPD_EXTI_Callbacks.length := by omega
  obtain ⟨bb, ck, sh⟩ := t
  by_cases hit : C.Reaction % 2 = 1 <;> cases bb <;> cases ck <;>
    simp only [F3.XPD_EXTI_Init, F3.XPD_EXTI_ClockCtrl, BB_store_eq_masked hL,
      ulLineBit_of_lt _ hL, and_REACTION_IT,
      and_REACTION_EVENT, and_EDGE_RISING, and_EDGE_FALLING, if_true, if_false,
      Bool.true_or, Bool.false_or, Bool.false_eq_true, hL2, hit]

/-! ## Contract of `Init` and `Deinit` on the line bits -/

/-- C1: for every line `L` in 0..31, every configuration and every prior state, after
`EXTI_vInit` (F0) and after `XPD_EXTI_Init` (F3), in the masked encoding and in the
bit-band encoding alike, bit `L` of `IMR` is 1 iff `Reaction` has `REACTION_IT` set,
bit `L` of `EMR` is 1 iff `Reaction` has `REACTION_EVENT` set, bit `L` of `RTSR` is 1
iff `Edge` has `EDGE_RISING` set and bit `L` of `FTSR` is 1 iff `Edge` has
`EDGE_FALLING` set. -/
theorem init_sets_line_bits (t : Target) (L : Nat) (hL : L < 32)
    (C0 : F0.EXTI_InitType) (s0 : F0.State)
    (C3 : F3.EXTI_InitType) (s3 : F3.State) (hlen : s3.XPD_EXTI_Callbacks.length = 32) :
    LineMatches (F0.EXTI_vInit t L C0 s0).EXTI L C0.Reaction C0.Edge ∧
    ∃ s', F3.XPD_EXTI_Init t L C3 s3 = some s' ∧
      LineMatches s'.EXTI L C3.Reaction C3.Edge := by
  refine ⟨?_, _, F3.XPD_EXTI_Init_eq t hL C3 s3 hlen, ?_⟩
  · rw [F0.EXTI_vInit_eq t hL]
    exact ⟨masked_write_bit _ hL _, masked_write_bit _ hL _, masked_write_bit _ hL _,
      masked_write_bit _ hL _⟩
  · exact ⟨masked_write_bit _ hL _, masked_write_bit _ hL _, masked_write_bit _ hL _,
      masked_write_bit _ hL _⟩

theorem init_sets_line_bits_witness :
    3 < 32 ∧ F3.sampleState.XPD_EXTI_Callbacks.length = 32 ∧
    (LineMatches (F0.EXTI_vInit ⟨false, false, shiftCountMod32⟩ 3 ⟨1, 1⟩ F0.sampleState).EXTI 3 1 1 ∧
     ∃ s', F3.XPD_EXTI_Init ⟨false, false, shiftCountMod32⟩ 3 ⟨1, 1, some 7⟩ F3.sampleState = some s' ∧
       LineMatches s'.EXTI 3 1 1) :=
  ⟨by decide, by decide,
    init_sets_line_bits ⟨false, false, shiftCountMod32⟩ 3 (by decide) ⟨1, 1⟩ F0.sampleState
      ⟨1, 1, some 7⟩ F3.sampleState (by decide)⟩

/-- C2: for every line `L` in 0..31 and every prior register state, after
`EXTI_vDeinit(L)` bit `L` of each of `IMR`, `EMR`, `RTSR` and `FTSR` is 0. -/
theorem deinit_clears_line_bits (t : Target) (L : Nat) (hL : L < 32) (s : F0.State) :
    LineCleared (F0.EXTI_vDeinit t L s).EXTI L := by
  rw [F0.EXTI_vDeinit_eq t hL]
  simp [LineCleared, testBit_CLEAR_BIT_line hL]

theorem deinit_clears_line_bits_witness :
    3 < 32 ∧ LineCleared (F0.EXTI_vDeinit ⟨false, false, shiftCountMod32⟩ 3 F0.sampleState).EXTI 3 :=
  ⟨by decide, deinit_clears_line_bits ⟨false, false, shiftCountMod32⟩ 3 (by decide) F0.sampleState⟩

/-- C3: for every line `L` in 0..31, every other line `L'` in 0..31 and every prior
register state, `EXTI_vDeinit(L)` leaves bit `L'` of `IMR`, `EMR`, `RTSR` and `FTSR`
equal to its value before the call. -/
theorem deinit_keeps_other_lines (t : Target) (L L' : Nat) (hL : L < 32) (hL' : L' < 32)
    (hne : L' ≠ L) (s : F0.State) :
    SameLine s.EXTI (F0.EXTI_vDeinit t L s).EXTI L' := by
  rw [F0.EXTI_vDeinit_eq t hL]
  simp [SameLine, testBit_CLEAR_BIT_line hL, hL', hne]

theorem deinit_keeps_other_lines_witness :
    3 < 32 ∧ 31 < 32 ∧ 31 ≠ 3 ∧
    SameLine F0.sampleState.EXTI (F0.EXTI_vDeinit ⟨false, false, shiftCountMod32⟩ 3 F0.sampleState).EXTI 31 :=
  ⟨by decide, by decide, by decide,
    deinit_keeps_other_lines ⟨false, false, shiftCountMod32⟩ 3 31 (by decide) (by decide) (by decide)
      F0.sampleState⟩

/-- C4: for every line `L` in 0..31 and every configuration `C`, `XPD_EXTI_Init(L, C)`
completes and afterwards `XPD_EXTI_Callbacks[L]` equals `C.ITCallback` if `C.Reaction`
has `REACTION_IT` set and is null otherwise, whatever `C.ITCallback` is. -/
theorem init_sets_callback_entry (t : Target) (L : Nat) (hL : L < 32)
    (C : F3.EXTI_InitType) (s : F3.State) (hlen : s.XPD_EXTI_Callbacks.length = 32) :
    ∃ s', F3.XPD_EXTI_Init t L C s = some s' ∧
      (C.Reaction &&& REACTION_IT ≠ 0 → s'.XPD_EXTI_Callbacks[L]? = some C.ITCallback) ∧
      (C.Reaction &&& REACTION_IT = 0 → s'.XPD_EXTI_Callbacks[L]? = some none) := by
  have hL2 : L < s.XPD_EXTI_Callbacks.length := by omega
  refine ⟨_, F3.XPD_EXTI_Init_eq t hL C s hlen, ?_, ?_⟩
  · intro h
    simp [h, hL2]
  · intro h
    simp [h, hL2]

theorem init_sets_callback_entry_witness :
    3 < 32 ∧ F3.sampleState.XPD_EXTI_Callbacks.length = 32 ∧
    ∃ s', F3.XPD_EXTI_Init ⟨false, false, shiftCountMod32⟩ 3 ⟨2, 3, some 7⟩ F3.sampleState = some s' ∧
      ((2 : Nat) &&& REACTION_IT ≠ 0 → s'.XPD_EXTI_Callbacks[3]? = some (some 7)) ∧
      ((2 : Nat) &&& REACTION_IT = 0 → s'.XPD_EXTI_Callbacks[3]? = some none) :=
  ⟨by decide, by decide,
    init_sets_callback_entry ⟨false, false, shiftCountMod32⟩ 3 (by decide) ⟨2, 3, some 7⟩ F3.sampleState
      (by decide)⟩

/-! ## The two encodings, idempotence and round trips -/

/-- C5: for every line `L` in 0..31, every prior state and every value of `Reaction`
and `Edge`, the bit-band encoding of Init (`EXTI_BB` defined) and the masked encoding
(`EXTI_BB` not defined) leave identical values in all four registers, in `EXTI_vInit`
and in `XPD_EXTI_Init`. -/
theorem init_encodings_agree (ck : Bool) (sh : Nat → Nat) (L : Nat) (hL : L < 32)
    (C0 : F0.EXTI_InitType) (s0 : F0.State)
    (C3 : F3.EXTI_InitType) (s3 : F3.State) (hlen : s3.XPD_EXTI_Callbacks.length = 32) :
    (F0.EXTI_vInit ⟨true, ck, sh⟩ L C0 s0).EXTI = (F0.EXTI_vInit ⟨false, ck, sh⟩ L C0 s0).EXTI ∧
    ∃ a b, F3.XPD_EXTI_Init ⟨true, ck, sh⟩ L C3 s3 = some a ∧
      F3.XPD_EXTI_Init ⟨false, ck, sh⟩ L C3 s3 = some b ∧ a.EXTI = b.EXTI := by
  refine ⟨?_, _, _, F3.XPD_EXTI_Init_eq ⟨true, ck, sh⟩ hL C3 s3 hlen,
    F3.XPD_EXTI_Init_eq ⟨false, ck, sh⟩ hL C3 s3 hlen, rfl⟩
  rw [F0.EXTI_vInit_eq ⟨true, ck, sh⟩ hL, F0.EXTI_vInit_eq ⟨false, ck, sh⟩ hL]

theorem init_encodings_agree_witness :
    31 < 32 ∧ F3.sampleState.XPD_EXTI_Callbacks.length = 32 ∧
    ((F0.EXTI_vInit ⟨true, true, shiftCountMod32⟩ 31 ⟨6, 5⟩ F0.sampleState).EXTI =
        (F0.EXTI_vInit ⟨false, true, shiftCountMod32⟩ 31 ⟨6, 5⟩ F0.sampleState).EXTI ∧
     ∃ a b, F3.XPD_EXTI_Init ⟨true, true, shiftCountMod32⟩ 31 ⟨6, 5, some 7⟩ F3.sampleState = some a ∧
       F3.XPD_EXTI_Init ⟨false, true, shiftCountMod32⟩ 31 ⟨6, 5, some 7⟩ F3.sampleState = some b ∧
       a.EXTI = b.EXTI) :=
  ⟨by decide, by decide,
    init_encodings_agree true shiftCountMod32 31 (by decide) ⟨6, 5⟩ F0.sampleState ⟨6, 5, some 7⟩
      F3.sampleState (by decide)⟩

/-- C6: Init is idempotent: for every line `L` in 0..31, every configuration and every
prior state, `EXTI_vInit(L, C)` applied to its own result returns that result, and
`XPD_EXTI_Init(L, C)` completes and applied to its own result returns that result
(registers, callback array and clock alike). -/
theorem init_idempotent (t : Target) (L : Nat) (hL : L < 32)
    (C0 : F0.EXTI_InitType) (s0 : F0.State)
    (C3 : F3.EXTI_InitType) (s3 : F3.State) (hlen : s3.XPD_EXTI_Callbacks.length = 32) :
    F0.EXTI_vInit t L C0 (F0.EXTI_vInit t L C0 s0) = F0.EXTI_vInit t L C0 s0 ∧
    ∃ s', F3.XPD_EXTI_Init t L C3 s3 = some s' ∧ F3.XPD_EXTI_Init t L C3 s' = some s' := by
  refine ⟨?_, _, F3.XPD_EXTI_Init_eq t hL C3 s3 hlen, ?_⟩
  · rw [F0.EXTI_vInit_eq t hL, F0.EXTI_vInit_eq t hL]
    simp only [masked_write_overwrite _ _ hL, ← Bool.or_assoc, Bool.or_self]
  · rw [F3.XPD_EXTI_Init_eq t hL]
    · simp only [masked_write_overwrite _ _ hL, ← Bool.or_assoc, Bool.or_self, List.set_set]
    · simp only [List.length_set, hlen]

theorem init_idempotent_witness :
    3 < 32 ∧ F3.sampleState.XPD_EXTI_Callbacks.length = 32 ∧
    (F0.EXTI_vInit ⟨false, true, shiftCountMod32⟩ 3 ⟨2, 1⟩ (F0.EXTI_vInit ⟨false, true, shiftCountMod32⟩ 3 ⟨2, 1⟩ F0.sampleState) =
        F0.EXTI_vInit ⟨false, true, shiftCountMod32⟩ 3 ⟨2, 1⟩ F0.sampleState ∧
     ∃ s', F3.XPD_EXTI_Init ⟨false, true, shiftCountMod32⟩ 3 ⟨1, 2, some 7⟩ F3.sampleState = some s' ∧
       F3.XPD_EXTI_Init ⟨false, true, shiftCountMod32⟩ 3 ⟨1, 2, some 7⟩ s' = some s') :=
  ⟨by decide, by decide,
    init_idempotent ⟨false, true, shiftCountMod32⟩ 3 (by decide) ⟨2, 1⟩ F0.sampleState ⟨1, 2, some 7⟩
      F3.sampleState (by decide)⟩

/-- C7: for every line `L` in 0..31, every configuration `C` and every prior state, the
state after `EXTI_vInit(L, C); EXTI_vDeinit(L); EXTI_vInit(L, C)` is the state after the
first `EXTI_vInit(L, C)` alone. -/
theorem init_deinit_init (t : Target) (L : Nat) (hL : L < 32) (C : F0.EXTI_InitType)
    (s : F0.State) :
    F0.EXTI_vInit t L C (F0.EXTI_vDeinit t L (F0.EXTI_vInit t L C s)) =
      F0.EXTI_vInit t L C s := by
  rw [F0.EXTI_vInit_eq t hL, F0.EXTI_vDeinit_eq t hL, F0.EXTI_vInit_eq t hL]
  simp only [masked_write_after_clear _ hL, masked_write_overwrite _ _ hL, ← Bool.or_assoc,
    Bool.or_self]

theorem init_deinit_init_witness :
    3 < 32 ∧
    F0.EXTI_vInit ⟨false, true, shiftCountMod32⟩ 3 ⟨3, 2⟩
        (F0.EXTI_vDeinit ⟨false, true, shiftCountMod32⟩ 3 (F0.EXTI_vInit ⟨false, true, shiftCountMod32⟩ 3 ⟨3, 2⟩ F0.sampleState)) =
      F0.EXTI_vInit ⟨false, true, shiftCountMod32⟩ 3 ⟨3, 2⟩ F0.sampleState :=
  ⟨by decide, init_deinit_init ⟨false, true, shiftCountMod32⟩ 3 (by decide) ⟨3, 2⟩ F0.sampleState⟩

/-- C8: for every line `L` and every prior state, `EXTI_vDeinit(L)` leaves the callback
array unchanged, so every entry, null or not, is the same before and after the call. -/
theorem deinit_keeps_callbacks (t : Target) (L : Nat) (s : F0.State) :
    (F0.EXTI_vDeinit t L s).EXTI_xPinCallbacks = s.EXTI_xPinCallbacks ∧
    ∀ i : Nat, (F0.EXTI_vDeinit t L s).EXTI_xPinCallbacks[i]? = s.EXTI_xPinCallbacks[i]? := by
  have h : (F0.EXTI_vDeinit t L s).EXTI_xPinCallbacks = s.EXTI_xPinCallbacks := by
    unfold F0.EXTI_vDeinit
    split <;> rfl
  exact ⟨h, fun i => by rw [h]⟩

/-- C9: for every line `L` in 0..31, every configuration `C` and every state of 32-bit
registers in which bit `L` of `IMR`, `EMR`, `RTSR` and `FTSR` is 0, `EXTI_vInit(L, C)`
followed by `EXTI_vDeinit(L)` yields the original values of all four registers. -/
theorem deinit_restores_default (t : Target) (L : Nat) (hL : L < 32) (C : F0.EXTI_InitType)
    (s : F0.State) (hvalid : s.EXTI.Valid) (hclear : LineCleared s.EXTI L) :
    (F0.EXTI_vDeinit t L (F0.EXTI_vInit t L C s)).EXTI = s.EXTI := by
  obtain ⟨v1, v2, v3, v4⟩ := hvalid
  obtain ⟨c1, c2, c3, c4⟩ := hclear
  rw [F0.EXTI_vDeinit_eq t hL, F0.EXTI_vInit_eq t hL]
  simp only [masked_clear_after_write _ hL]
  rw [CLEAR_BIT_of_clear hL v1 c1, CLEAR_BIT_of_clear hL v2 c2, CLEAR_BIT_of_clear hL v3 c3,
    CLEAR_BIT_of_clear hL v4 c4]

theorem deinit_restores_default_witness :
    5 < 32 ∧ F0.sampleState.EXTI.Valid ∧ LineCleared F0.sampleState.EXTI 5 ∧
    (F0.EXTI_vDeinit ⟨false, false, shiftCountMod32⟩ 5
      (F0.EXTI_vInit ⟨false, false, shiftCountMod32⟩ 5 ⟨3, 3⟩ F0.sampleState)).EXTI = F0.sampleState.EXTI :=
  ⟨by decide, by decide, by decide,
    deinit_restores_default ⟨false, false, shiftCountMod32⟩ 5 (by decide) ⟨3, 3⟩ F0.sampleState (by decide)
      (by decide)⟩

/-- C10: the callback array `XPD_EXTI_Callbacks` of the F3 variant has exactly 32
entries, one for each line identifier 0..31, and each of them is null in its
initializer, the state before any Init call. -/
theorem callbacks_initially_null :
    F3.XPD_EXTI_Callbacks.length = 32 ∧
    ∀ L : Fin 32, F3.XPD_EXTI_Callbacks[L.val]? = some none := by
  decide

/-! ## Bounds, clock and locality of `Init` -/

/-- Bits of a word after a masked write of line `L1` followed by one of line `L2`. -/
theorem testBit_masked_write_two (c d : Prop) [Decidable c] [Decidable d] {L1 L2 : Nat}
    (h1 : L1 < 32) (h2 : L2 < 32) (r i : Nat) :
    (if d then SET_BIT (if c then SET_BIT r (2 ^ L1) else CLEAR_BIT r (2 ^ L1))
        (2 ^ L2)
      else CLEAR_BIT (if c then SET_BIT r (2 ^ L1) else CLEAR_BIT r (2 ^ L1))
        (2 ^ L2)).testBit i =
    (decide (i < 32) &&
      (if i = L2 then decide d else if i = L1 then decide c else r.testBit i)) := by
  rw [testBit_masked_write d h2, testBit_masked_write c h1]
  by_cases h32 : i < 32 <;> simp [h32]

/-- Masked writes of two different lines do not depend on their order. -/
theorem masked_write_comm (c d : Prop) [Decidable c] [Decidable d] {L1 L2 : Nat}
    (h1 : L1 < 32) (h2 : L2 < 32) (hne : L1 ≠ L2) (r : Nat) :
    (if d then SET_BIT (if c then SET_BIT r (2 ^ L1) else CLEAR_BIT r (2 ^ L1))
        (2 ^ L2)
      else CLEAR_BIT (if c then SET_BIT r (2 ^ L1) else CLEAR_BIT r (2 ^ L1))
        (2 ^ L2)) =
    (if c then SET_BIT (if d then SET_BIT r (2 ^ L2) else CLEAR_BIT r (2 ^ L2))
        (2 ^ L1)
      else CLEAR_BIT (if d then SET_BIT r (2 ^ L2) else CLEAR_BIT r (2 ^ L2))
        (2 ^ L1)) := by
  apply Nat.eq_of_testBit_eq
  intro i
  rw [testBit_masked_write_two c d h1 h2, testBit_masked_write_two d c h2 h1]
  by_cases e1 : i = L1
  · have e2 : ¬ i = L2 := fun e => hne (e1.symm.trans e)
    simp only [if_pos e1, if_neg e2]
  · by_cases e2 : i = L2
    · simp only [if_neg e1, if_pos e2]
    · simp only [if_neg e1, if_neg e2]

/-- A masked write of line `L` keeps the bit of every other line below 32. -/
theorem masked_write_other (c : Prop) [Decidable c] {L L' : Nat} (hL : L < 32)
    (hL' : L' < 32) (hne : L' ≠ L) (r : Nat) :
    (if c then SET_BIT r (2 ^ L) else CLEAR_BIT r (2 ^ L)).testBit L' =
      r.testBit L' := by
  rw [testBit_masked_write c hL, if_neg hne]
  simp [hL']

/-- C11: `XPD_EXTI_Init` has no validation and no error result: for every line
identifier `L` below 32 and every configuration the store to `XPD_EXTI_Callbacks[L]` is
inside the 32-entry array and the call completes with a state, while for every line
identifier `L'` from 32 up to 255 the store indexes past the end of the array and the
call has no defined result. -/
theorem init_bounds (t : Target) (L L' : Nat) (C : F3.EXTI_InitType) (s : F3.State)
    (hlen : s.XPD_EXTI_Callbacks.length = 32) (hL : L < 32) (hL' : 32 ≤ L')
    (h255 : L' < 256) :
    (L < s.XPD_EXTI_Callbacks.length ∧ ∃ s', F3.XPD_EXTI_Init t L C s = some s') ∧
    (¬ L' < s.XPD_EXTI_Callbacks.length ∧ L' < 256 ∧ F3.XPD_EXTI_Init t L' C s = none) := by
  have hn : ¬ L' < s.XPD_EXTI_Callbacks.length := by omega
  refine ⟨⟨by omega, _, F3.XPD_EXTI_Init_eq t hL C s hlen⟩, hn, h255, ?_⟩
  obtain ⟨bb, ck, sh⟩ := t
  cases bb <;> cases ck <;>
    simp only [F3.XPD_EXTI_Init, F3.XPD_EXTI_ClockCtrl, if_true, if_false,
      Bool.false_eq_true, hn]

theorem init_bounds_witness :
    F3.sampleState.XPD_EXTI_Callbacks.length = 32 ∧ 31 < 32 ∧ 32 ≤ 32 ∧ 32 < 256 ∧
    ((31 < F3.sampleState.XPD_EXTI_Callbacks.length ∧
        ∃ s', F3.XPD_EXTI_Init ⟨false, false, shiftCountMod32⟩ 31 ⟨1, 1, some 7⟩ F3.sampleState = some s') ∧
     (¬ 32 < F3.sampleState.XPD_EXTI_Callbacks.length ∧ 32 < 256 ∧
        F3.XPD_EXTI_Init ⟨false, false, shiftCountMod32⟩ 32 ⟨1, 1, some 7⟩ F3.sampleState = none)) :=
  ⟨by decide, by decide, by decide, by decide,
    init_bounds ⟨false, false, shiftCountMod32⟩ 31 32 ⟨1, 1, some 7⟩ F3.sampleState (by decide) (by decide)
      (by decide) (by decide)⟩

/-- The clock state after `EXTI_vInit`, for every line. -/
theorem F0.EXTI_vInit_clock (t : Target) (L : Nat) (C : F0.EXTI_InitType) (s : F0.State) :
    (F0.EXTI_vInit t L C s).clockEnabled = (t.RCC_APB2ENR_EXTITEN || s.clockEnabled) := by
  obtain ⟨bb, ck, sh⟩ := t
  cases bb <;> cases ck <;> simp [F0.EXTI_vInit, F0.RCC_vClockEnable]

/-- C12: on a build with `RCC_APB2ENR_EXTITEN` defined, Init enables the EXTI clock for
every line and every configuration, whatever `Reaction` and `Edge` are, so the clock is
enabled in the post-state; on a build without it the clock state is unchanged. Stated
for `EXTI_vInit` on any line `L0` and for `XPD_EXTI_Init` on a line `L` below 32, where
the call completes. -/
theorem init_clock (t : Target) (L0 : Nat) (C0 : F0.EXTI_InitType) (s0 : F0.State)
    (L : Nat) (hL : L < 32) (C3 : F3.EXTI_InitType) (s3 : F3.State)
    (hlen : s3.XPD_EXTI_Callbacks.length = 32) :
    (t.RCC_APB2ENR_EXTITEN = true → (F0.EXTI_vInit t L0 C0 s0).clockEnabled = true) ∧
    (t.RCC_APB2ENR_EXTITEN = false →
      (F0.EXTI_vInit t L0 C0 s0).clockEnabled = s0.clockEnabled) ∧
    ∃ s', F3.XPD_EXTI_Init t L C3 s3 = some s' ∧
      (t.RCC_APB2ENR_EXTITEN = true → s'.clockEnabled = true) ∧
      (t.RCC_APB2ENR_EXTITEN = false → s'.clockEnabled = s3.clockEnabled) := by
  refine ⟨?_, ?_, _, F3.XPD_EXTI_Init_eq t hL C3 s3 hlen, ?_, ?_⟩
  · intro h; rw [F0.EXTI_vInit_clock, h, Bool.true_or]
  · intro h; rw [F0.EXTI_vInit_clock, h, Bool.false_or]
  · intro h; simp only [h, Bool.true_or]
  · intro h; simp only [h, Bool.false_or]

theorem init_clock_witness :
    3 < 32 ∧ F3.sampleState.XPD_EXTI_Callbacks.length = 32 ∧
    (((⟨false, true, shiftCountMod32⟩ : Target).RCC_APB2ENR_EXTITEN = true →
        (F0.EXTI_vInit ⟨false, true, shiftCountMod32⟩ 200 ⟨0, 0⟩ F0.sampleState).clockEnabled = true) ∧
     ((⟨false, true, shiftCountMod32⟩ : Target).RCC_APB2ENR_EXTITEN = false →
        (F0.EXTI_vInit ⟨false, true, shiftCountMod32⟩ 200 ⟨0, 0⟩ F0.sampleState).clockEnabled =
          F0.sampleState.clockEnabled) ∧
     ∃ s', F3.XPD_EXTI_Init ⟨false, true, shiftCountMod32⟩ 3 ⟨0, 0, none⟩ F3.sampleState = some s' ∧
       ((⟨false, true, shiftCountMod32⟩ : Target).RCC_APB2ENR_EXTITEN = true → s'.clockEnabled = true) ∧
       ((⟨false, true, shiftCountMod32⟩ : Target).RCC_APB2ENR_EXTITEN = false →
          s'.clockEnabled = F3.sampleState.clockEnabled)) :=
  ⟨by decide, by decide,
    init_clock ⟨false, true, shiftCountMod32⟩ 200 ⟨0, 0⟩ F0.sampleState 3 (by decide) ⟨0, 0, none⟩
      F3.sampleState (by decide)⟩

/-- C13: Init is local to its line: for every line `L` in 0..31, every other line `L'`
in 0..31, every configuration and every prior state, `EXTI_vInit(L, C)` and
`XPD_EXTI_Init(L, C)` leave bit `L'` of `IMR`, `EMR`, `RTSR` and `FTSR` unchanged, and
`XPD_EXTI_Init(L, C)` leaves the callback entry of `L'` unchanged. -/
theorem init_keeps_other_lines (t : Target) (L L' : Nat) (hL : L < 32) (hL' : L' < 32)
    (hne : L' ≠ L) (C0 : F0.EXTI_InitType) (s0 : F0.State)
    (C3 : F3.EXTI_InitType) (s3 : F3.State) (hlen : s3.XPD_EXTI_Callbacks.length = 32) :
    SameLine s0.EXTI (F0.EXTI_vInit t L C0 s0).EXTI L' ∧
    ∃ s', F3.XPD_EXTI_Init t L C3 s3 = some s' ∧ SameLine s3.EXTI s'.EXTI L' ∧
      s'.XPD_EXTI_Callbacks[L']? = s3.XPD_EXTI_Callbacks[L']? := by
  refine ⟨?_, _, F3.XPD_EXTI_Init_eq t hL C3 s3 hlen, ?_, ?_⟩
  · rw [F0.EXTI_vInit_eq t hL]
    exact ⟨masked_write_other _ hL hL' hne _, masked_write_other _ hL hL' hne _,
      masked_write_other _ hL hL' hne _, masked_write_other _ hL hL' hne _⟩
  · exact ⟨masked_write_other _ hL hL' hne _, masked_write_other _ hL hL' hne _,
      masked_write_other _ hL hL' hne _, masked_write_other _ hL hL' hne _⟩
  · exact List.getElem?_set_ne (fun e => hne e.symm)

theorem init_keeps_other_lines_witness :
    3 < 32 ∧ 0 < 32 ∧ 0 ≠ 3 ∧ F3.sampleState.XPD_EXTI_Callbacks.length = 32 ∧
    (SameLine F0.sampleState.EXTI
        (F0.EXTI_vInit ⟨false, false, shiftCountMod32⟩ 3 ⟨0, 3⟩ F0.sampleState).EXTI 0 ∧
     ∃ s', F3.XPD_EXTI_Init ⟨false, false, shiftCountMod32⟩ 3 ⟨1, 3, some 7⟩ F3.sampleState = some s' ∧
       SameLine F3.sampleState.EXTI s'.EXTI 0 ∧
       s'.XPD_EXTI_Callbacks[0]? = F3.sampleState.XPD_EXTI_Callbacks[0]?) :=
  ⟨by decide, by decide, by decide, by decide,
    init_keeps_other_lines ⟨false, false, shiftCountMod32⟩ 3 0 (by decide) (by decide) (by decide) ⟨0, 3⟩
      F0.sampleState ⟨1, 3, some 7⟩ F3.sampleState (by decide)⟩

/-! ## Sequences of `Init` calls -/

/-- The initializer of `XPD_EXTI_Callbacks` holds no callback. -/
theorem F3.initializer_no_callback (K cb : Nat) :
    F3.XPD_EXTI_Callbacks[K]? ≠ some (some cb) := by
  intro h
  have hmem : some cb ∈ F3.XPD_EXTI_Callbacks := List.getElem?_mem h
  simp [F3.XPD_EXTI_Callbacks] at hmem

/-- One `XPD_EXTI_Init` call on a line below 32 completes, keeps the array at 32
entries and keeps `CallbacksUnmasked`. -/
theorem F3.XPD_EXTI_Init_keeps_unmasked (t : Target) {L : Nat} (hL : L < 32)
    (C : F3.EXTI_InitType) (s : F3.State) (hlen : s.XPD_EXTI_Callbacks.length = 32)
    (hinv : F3.CallbacksUnmasked s) :
    ∃ s', F3.XPD_EXTI_Init t L C s = some s' ∧ s'.XPD_EXTI_Callbacks.length = 32 ∧
      F3.CallbacksUnmasked s' := by
  have hL2 : L < s.XPD_EXTI_Callbacks.length := by omega
  refine ⟨_, F3.XPD_EXTI_Init_eq t hL C s hlen, ?_, ?_⟩
  · simp only [List.length_set, hlen]
  · intro K hK cb hcb
    by_cases e : K = L
    · subst e
      have hcb2 : (s.XPD_EXTI_Callbacks.set K
          (if C.Reaction &&& REACTION_IT ≠ 0 then C.ITCallback else none))[K]? =
          some (some cb) := hcb
      rw [List.getElem?_set_self hL2] at hcb2
      have hit : C.Reaction &&& REACTION_IT ≠ 0 := by
        intro h0
        rw [if_neg (not_not_intro h0)] at hcb2
        cases hcb2
      exact (masked_write_bit _ hL _).mpr hit
    · have hcb2 : (s.XPD_EXTI_Callbacks.set L
          (if C.Reaction &&& REACTION_IT ≠ 0 then C.ITCallback else none))[K]? =
          some (some cb) := hcb
      rw [List.getElem?_set_ne (fun h => e h.symm)] at hcb2
      exact (masked_write_other _ hL hK e _).trans (hinv K hK cb hcb2)

/-- A sequence of `XPD_EXTI_Init` calls on lines below 32 completes and keeps
`CallbacksUnmasked`. -/
theorem F3.runInits_keeps_unmasked (t : Target) (calls : List (Nat × F3.EXTI_InitType)) :
    ∀ s : F3.State, s.XPD_EXTI_Callbacks.length = 32 → F3.CallbacksUnmasked s →
      (∀ c ∈ calls, c.1 < 32) →
      ∃ s', F3.runInits t calls s = some s' ∧ s'.XPD_EXTI_Callbacks.length = 32 ∧
        F3.CallbacksUnmasked s' := by
  induction calls with
  | nil =>
    intro s hlen hinv _
    exact ⟨s, rfl, hlen, hinv⟩
  | cons c cs ih =>
    intro s hlen hinv hlines
    have hc : c.1 < 32 := hlines c (List.mem_cons_self c cs)
    obtain ⟨s1, h1, hlen1, hinv1⟩ := F3.XPD_EXTI_Init_keeps_unmasked t hc c.2 s hlen hinv
    obtain ⟨s2, h2, hlen2, hinv2⟩ :=
      ih s1 hlen1 hinv1 (fun d hd => hlines d (List.mem_cons_of_mem c hd))
    refine ⟨s2, ?_, hlen2, hinv2⟩
    simp only [F3.runInits, h1, Option.some_bind, h2]

/-- C14: in the F3 variant every state reached from an initial state (callback array at
its all-null initializer, arbitrary register values) by a finite sequence of
`XPD_EXTI_Init` calls on lines in 0..31 exists and satisfies: for every line `L` in
0..31, if `XPD_EXTI_Callbacks[L]` is non-null then bit `L` of `IMR` is 1. -/
theorem callbacks_only_on_unmasked_lines (t : Target)
    (calls : List (Nat × F3.EXTI_InitType)) (s0 : F3.State)
    (hinit : s0.XPD_EXTI_Callbacks = F3.XPD_EXTI_Callbacks)
    (hlines : ∀ c ∈ calls, c.1 < 32) :
    ∃ s, F3.runInits t calls s0 = some s ∧
      ∀ L, L < 32 → ∀ cb, s.XPD_EXTI_Callbacks[L]? = some (some cb) →
        s.EXTI.IMR.testBit L = true := by
  have hlen : s0.XPD_EXTI_Callbacks.length = 32 := by rw [hinit]; rfl
  have hinv : F3.CallbacksUnmasked s0 := by
    intro K _ cb hcb
    rw [hinit] at hcb
    exact absurd hcb (F3.initializer_no_callback K cb)
  obtain ⟨s, hs, _, hinv'⟩ := F3.runInits_keeps_unmasked t calls s0 hlen hinv hlines
  exact ⟨s, hs, hinv'⟩

theorem callbacks_only_on_unmasked_lines_witness :
    F3.sampleState.XPD_EXTI_Callbacks = F3.XPD_EXTI_Callbacks ∧
    (∀ c ∈ [(3, (⟨1, 1, some 7⟩ : F3.EXTI_InitType)), (4, ⟨2, 3, some 9⟩),
        (3, ⟨0, 3, some 5⟩), (31, ⟨3, 0, some 11⟩)], c.1 < 32) ∧
    ∃ s, F3.runInits ⟨false, false, shiftCountMod32⟩
        [(3, (⟨1, 1, some 7⟩ : F3.EXTI_InitType)), (4, ⟨2, 3, some 9⟩),
          (3, ⟨0, 3, some 5⟩), (31, ⟨3, 0, some 11⟩)] F3.sampleState = some s ∧
      ∀ L, L < 32 → ∀ cb, s.XPD_EXTI_Callbacks[L]? = some (some cb) →
        s.EXTI.IMR.testBit L = true :=
  ⟨rfl, by decide,
    callbacks_only_on_unmasked_lines ⟨false, false, shiftCountMod32⟩
      [(3, (⟨1, 1, some 7⟩ : F3.EXTI_InitType)), (4, ⟨2, 3, some 9⟩),
        (3, ⟨0, 3, some 5⟩), (31, ⟨3, 0, some 11⟩)] F3.sampleState rfl (by decide)⟩

/-- C15: Init overwrites: for every line `L` in 0..31, every two configurations `C1`
and `C2` and every prior state, Init(L, C1) followed by Init(L, C2) yields the same
state (registers, callback array, clock) as Init(L, C2) alone, for `EXTI_vInit` and for
`XPD_EXTI_Init`, where both calls complete. -/
theorem init_overwrites (t : Target) (L : Nat) (hL : L < 32)
    (C1 C2 : F0.EXTI_InitType) (s0 : F0.State)
    (D1 D2 : F3.EXTI_InitType) (s3 : F3.State) (hlen : s3.XPD_EXTI_Callbacks.length = 32) :
    F0.EXTI_vInit t L C2 (F0.EXTI_vInit t L C1 s0) = F0.EXTI_vInit t L C2 s0 ∧
    ∃ a b, F3.XPD_EXTI_Init t L D1 s3 = some a ∧ F3.XPD_EXTI_Init t L D2 a = some b ∧
      F3.XPD_EXTI_Init t L D2 s3 = some b := by
  refine ⟨?_, _, _, F3.XPD_EXTI_Init_eq t hL D1 s3 hlen, F3.XPD_EXTI_Init_eq t hL D2 _ ?_, ?_⟩
  · rw [F0.EXTI_vInit_eq t hL, F0.EXTI_vInit_eq t hL, F0.EXTI_vInit_eq t hL]
    simp only [masked_write_overwrite _ _ hL, ← Bool.or_assoc, Bool.or_self]
  · simp only [List.length_set, hlen]
  · rw [F3.XPD_EXTI_Init_eq t hL D2 s3 hlen]
    simp only [masked_write_overwrite _ _ hL, ← Bool.or_assoc, Bool.or_self, List.set_set]

theorem init_overwrites_witness :
    3 < 32 ∧ F3.sampleState.XPD_EXTI_Callbacks.length = 32 ∧
    (F0.EXTI_vInit ⟨false, true, shiftCountMod32⟩ 3 ⟨0, 2⟩ (F0.EXTI_vInit ⟨false, true, shiftCountMod32⟩ 3 ⟨3, 1⟩ F0.sampleState) =
        F0.EXTI_vInit ⟨false, true, shiftCountMod32⟩ 3 ⟨0, 2⟩ F0.sampleState ∧
     ∃ a b, F3.XPD_EXTI_Init ⟨false, true, shiftCountMod32⟩ 3 ⟨3, 1, some 7⟩ F3.sampleState = some a ∧
       F3.XPD_EXTI_Init ⟨false, true, shiftCountMod32⟩ 3 ⟨0, 2, some 9⟩ a = some b ∧
       F3.XPD_EXTI_Init ⟨false, true, shiftCountMod32⟩ 3 ⟨0, 2, some 9⟩ F3.sampleState = some b) :=
  ⟨by decide, by decide,
    init_overwrites ⟨false, true, shiftCountMod32⟩ 3 (by decide) ⟨3, 1⟩ ⟨0, 2⟩ F0.sampleState
      ⟨3, 1, some 7⟩ ⟨0, 2, some 9⟩ F3.sampleState (by decide)⟩

/-- C16: configuration of distinct lines commutes: for every two lines `L1 ≠ L2` in
0..31, every two configurations and every prior state, Init(L1, C1) then Init(L2, C2)
yields the same state (registers, callback array, clock) as Init(L2, C2) then
Init(L1, C1), for `EXTI_vInit` and for `XPD_EXTI_Init`, where all calls complete. -/
theorem init_commutes (t : Target) (L1 L2 : Nat) (h1 : L1 < 32) (h2 : L2 < 32)
    (hne : L1 ≠ L2) (C1 C2 : F0.EXTI_InitType) (s0 : F0.State)
    (D1 D2 : F3.EXTI_InitType) (s3 : F3.State) (hlen : s3.XPD_EXTI_Callbacks.length = 32) :
    F0.EXTI_vInit t L2 C2 (F0.EXTI_vInit t L1 C1 s0) =
      F0.EXTI_vInit t L1 C1 (F0.EXTI_vInit t L2 C2 s0) ∧
    ∃ a b c, F3.XPD_EXTI_Init t L1 D1 s3 = some a ∧ F3.XPD_EXTI_Init t L2 D2 a = some c ∧
      F3.XPD_EXTI_Init t L2 D2 s3 = some b ∧ F3.XPD_EXTI_Init t L1 D1 b = some c := by
  refine ⟨?_, _, _, _, F3.XPD_EXTI_Init_eq t h1 D1 s3 hlen, F3.XPD_EXTI_Init_eq t h2 D2 _ ?_,
    F3.XPD_EXTI_Init_eq t h2 D2 s3 hlen, ?_⟩
  · rw [F0.EXTI_vInit_eq t h2, F0.EXTI_vInit_eq t h1, F0.EXTI_vInit_eq t h1,
      F0.EXTI_vInit_eq t h2]
    rw [masked_write_comm (C1.Reaction &&& REACTION_IT ≠ 0) (C2.Reaction &&& REACTION_IT ≠ 0)
        h1 h2 hne s0.EXTI.IMR,
      masked_write_comm (C1.Reaction &&& REACTION_EVENT ≠ 0)
        (C2.Reaction &&& REACTION_EVENT ≠ 0) h1 h2 hne s0.EXTI.EMR,
      masked_write_comm (C1.Edge &&& EDGE_RISING ≠ 0) (C2.Edge &&& EDGE_RISING ≠ 0)
        h1 h2 hne s0.EXTI.RTSR,
      masked_write_comm (C1.Edge &&& EDGE_FALLING ≠ 0) (C2.Edge &&& EDGE_FALLING ≠ 0)
        h1 h2 hne s0.EXTI.FTSR]
  · simp only [List.length_set, hlen]
  · rw [F3.XPD_EXTI_Init_eq t h1 D1 _ (by simp only [List.length_set, hlen])]
    simp only
    rw [masked_write_comm (D1.Reaction &&& REACTION_IT ≠ 0) (D2.Reaction &&& REACTION_IT ≠ 0)
        h1 h2 hne s3.EXTI.IMR,
      masked_write_comm (D1.Reaction &&& REACTION_EVENT ≠ 0)
        (D2.Reaction &&& REACTION_EVENT ≠ 0) h1 h2 hne s3.EXTI.EMR,
      masked_write_comm (D1.Edge &&& EDGE_RISING ≠ 0) (D2.Edge &&& EDGE_RISING ≠ 0)
        h1 h2 hne s3.EXTI.RTSR,
      masked_write_comm (D1.Edge &&& EDGE_FALLING ≠ 0) (D2.Edge &&& EDGE_FALLING ≠ 0)
        h1 h2 hne s3.EXTI.FTSR,
      List.set_comm _ _ _ hne]

theorem init_commutes_witness :
    3 < 32 ∧ 31 < 32 ∧ 3 ≠ 31 ∧ F3.sampleState.XPD_EXTI_Callbacks.length = 32 ∧
    (F0.EXTI_vInit ⟨false, true, shiftCountMod32⟩ 31 ⟨2, 1⟩ (F0.EXTI_vInit ⟨false, true, shiftCountMod32⟩ 3 ⟨1, 2⟩ F0.sampleState) =
        F0.EXTI_vInit ⟨false, true, shiftCountMod32⟩ 3 ⟨1, 2⟩
          (F0.EXTI_vInit ⟨false, true, shiftCountMod32⟩ 31 ⟨2, 1⟩ F0.sampleState) ∧
     ∃ a b c, F3.XPD_EXTI_Init ⟨false, true, shiftCountMod32⟩ 3 ⟨1, 2, some 7⟩ F3.sampleState = some a ∧
       F3.XPD_EXTI_Init ⟨false, true, shiftCountMod32⟩ 31 ⟨3, 1, some 9⟩ a = some c ∧
       F3.XPD_EXTI_Init ⟨false, true, shiftCountMod32⟩ 31 ⟨3, 1, some 9⟩ F3.sampleState = some b ∧
       F3.XPD_EXTI_Init ⟨false, true, shiftCountMod32⟩ 3 ⟨1, 2, some 7⟩ b = some c) :=
  ⟨by decide, by decide, by decide, by decide,
    init_commutes ⟨false, true, shiftCountMod32⟩ 3 31 (by decide) (by decide) (by decide) ⟨1, 2⟩ ⟨2, 1⟩
      F0.sampleState ⟨1, 2, some 7⟩ ⟨3, 1, some 9⟩ F3.sampleState (by decide)⟩

/-! ## Deinit encodings, the F0 callback array and the line mask -/

/-- C17: for every line `L` in 0..31 and every prior register state, the bit-band
encoding of `EXTI_vDeinit` (store 0 to the alias words of the line) and the masked
encoding (AND-NOT with `1 << L`) leave identical values in all four registers. -/
theorem deinit_encodings_agree (ck : Bool) (sh : Nat → Nat) (L : Nat) (hL : L < 32) (s : F0.State) :
    (F0.EXTI_vDeinit ⟨true, ck, sh⟩ L s).EXTI = (F0.EXTI_vDeinit ⟨false, ck, sh⟩ L s).EXTI := by
  rw [F0.EXTI_vDeinit_eq ⟨true, ck, sh⟩ hL, F0.EXTI_vDeinit_eq ⟨false, ck, sh⟩ hL]

theorem deinit_encodings_agree_witness :
    31 < 32 ∧
    (F0.EXTI_vDeinit ⟨true, false, shiftCountMod32⟩ 31 F0.sampleState).EXTI =
      (F0.EXTI_vDeinit ⟨false, false, shiftCountMod32⟩ 31 F0.sampleState).EXTI :=
  ⟨by decide, deinit_encodings_agree false shiftCountMod32 31 (by decide) F0.sampleState⟩

/-- The callback array after `EXTI_vInit`, for every line. -/
theorem F0.EXTI_vInit_callbacks (t : Target) (L : Nat) (C : F0.EXTI_InitType) (s : F0.State) :
    (F0.EXTI_vInit t L C s).EXTI_xPinCallbacks = s.EXTI_xPinCallbacks := by
  obtain ⟨bb, ck, sh⟩ := t
  cases bb <;> cases ck <;> simp [F0.EXTI_vInit, F0.RCC_vClockEnable]

/-- The callback array after `EXTI_vDeinit`, for every line. -/
theorem F0.EXTI_vDeinit_callbacks (t : Target) (L : Nat) (s : F0.State) :
    (F0.EXTI_vDeinit t L s).EXTI_xPinCallbacks = s.EXTI_xPinCallbacks := by
  obtain ⟨bb, ck, sh⟩ := t
  cases bb <;> simp [F0.EXTI_vDeinit]

/-- The callback array after a sequence of F0 calls. -/
theorem F0.runCalls_callbacks (t : Target) (calls : List F0.Call) :
    ∀ s : F0.State, (F0.runCalls t calls s).EXTI_xPinCallbacks = s.EXTI_xPinCallbacks := by
  induction calls with
  | nil => intro s; rfl
  | cons c cs ih =>
    intro s
    cases c with
    | init L C =>
      show (F0.runCalls t cs (F0.EXTI_vInit t L C s)).EXTI_xPinCallbacks = _
      rw [ih, F0.EXTI_vInit_callbacks]
    | deinit L =>
      show (F0.runCalls t cs (F0.EXTI_vDeinit t L s)).EXTI_xPinCallbacks = _
      rw [ih, F0.EXTI_vDeinit_callbacks]

/-- C18: in the F0 variant the 16-entry array `EXTI_xPinCallbacks` is written by
neither operation: for every line, configuration and prior state `EXTI_vInit` and
`EXTI_vDeinit` leave the array unchanged, so after every finite sequence of these calls
from a state holding the initializer all 16 entries are null, whatever reaction was
requested. -/
theorem pin_callbacks_never_written (t : Target) (L : Nat) (C : F0.EXTI_InitType)
    (s : F0.State) (calls : List F0.Call) (r : EXTI_TypeDef) (ck : Bool) :
    F0.EXTI_xPinCallbacks.length = 16 ∧
    (F0.EXTI_vInit t L C s).EXTI_xPinCallbacks = s.EXTI_xPinCallbacks ∧
    (F0.EXTI_vDeinit t L s).EXTI_xPinCallbacks = s.EXTI_xPinCallbacks ∧
    (F0.runCalls t calls s).EXTI_xPinCallbacks = s.EXTI_xPinCallbacks ∧
    (F0.runCalls t calls ⟨r, F0.EXTI_xPinCallbacks, ck⟩).EXTI_xPinCallbacks =
      List.replicate 16 none := by
  refine ⟨rfl, F0.EXTI_vInit_callbacks t L C s, F0.EXTI_vDeinit_callbacks t L s,
    F0.runCalls_callbacks t calls s, ?_⟩
  rw [F0.runCalls_callbacks]
  rfl


/-- C19, as amended: the line mask of the masked encoding, `1 << L` as a 32-bit word,
equals `2 ^ L` and has exactly bit `L` set for every `L` in 0..31 (31 included), and
the masks of two distinct lines in 0..31 have no bit in common, on every target. -/
theorem line_mask (t : Target) (L L1 L2 : Nat) (hL : L < 32) (h1 : L1 < 32) (h2 : L2 < 32)
    (hne : L1 ≠ L2) :
    ulLineBit t L = 2 ^ L ∧ (∀ i, (ulLineBit t L).testBit i = decide (i = L)) ∧
    ulLineBit t L1 &&& ulLineBit t L2 = 0 := by
  refine ⟨ulLineBit_of_lt t hL, ?_, ?_⟩
  · intro i
    rw [ulLineBit_of_lt t hL, Nat.testBit_two_pow]
    by_cases e : i = L
    · subst e; simp
    · have e' : ¬ L = i := fun h => e h.symm
      simp [e, e']
  · apply Nat.eq_of_testBit_eq
    intro i
    rw [ulLineBit_of_lt t h1, ulLineBit_of_lt t h2, Nat.testBit_and, Nat.testBit_two_pow,
      Nat.testBit_two_pow, Nat.zero_testBit]
    by_cases e1 : L1 = i
    · have e2 : ¬ L2 = i := fun h => hne (e1.trans h.symm)
      simp [e2]
    · simp [e1]

theorem line_mask_witness :
    31 < 32 ∧ 0 < 32 ∧ 31 < 32 ∧ 0 ≠ 31 ∧
    (ulLineBit ⟨false, false, shiftCountMod32⟩ 31 = 2 ^ 31 ∧
     (∀ i, (ulLineBit ⟨false, false, shiftCountMod32⟩ 31).testBit i = decide (i = 31)) ∧
     ulLineBit ⟨false, false, shiftCountMod32⟩ 0 &&&
       ulLineBit ⟨false, false, shiftCountMod32⟩ 31 = 0) :=
  ⟨by decide, by decide, by decide, by decide,
    line_mask ⟨false, false, shiftCountMod32⟩ 31 0 31 (by decide) (by decide) (by decide)
      (by decide)⟩

/-- C19, the part that fails: for the line identifier 255, in 32..255, on a target whose
shift uses the low five bits of the count, the mask `1 << 255` is `0x80000000`, not 0,
and the masked `EXTI_vInit` and `EXTI_vDeinit` change the 32-bit registers. -/
theorem mask_past_width_counterexample :
    32 ≤ 255 ∧ 255 < 256 ∧ F0.sampleState.EXTI.Valid ∧
    ulLineBit ⟨false, false, shiftCountMod32⟩ 255 = 0x80000000 ∧
    ulLineBit ⟨false, false, shiftCountMod32⟩ 255 ≠ 0 ∧
    (F0.EXTI_vInit ⟨false, false, shiftCountMod32⟩ 255 ⟨3, 3⟩ F0.sampleState).EXTI =
      { IMR := 0x8F940008, EMR := 0x80000008, RTSR := 0x80000001, FTSR := 0xFFFF0008 } ∧
    (F0.EXTI_vInit ⟨false, false, shiftCountMod32⟩ 255 ⟨3, 3⟩ F0.sampleState).EXTI ≠
      F0.sampleState.EXTI ∧
    (F0.EXTI_vDeinit ⟨false, false, shiftCountMod32⟩ 255 F0.sampleState).EXTI =
      { IMR := 0x0F940008, EMR := 0x00000008, RTSR := 0x00000001, FTSR := 0x7FFF0008 } ∧
    (F0.EXTI_vDeinit ⟨false, false, shiftCountMod32⟩ 255 F0.sampleState).EXTI ≠
      F0.sampleState.EXTI := by
  decide

end STM32_XPD
